import Mathlib

/-
Verification of the Tauri backend commands in src/src-tauri/src/main.rs:
a shallow embedding of the four command handlers (get_chat_history,
generate_ai_response, get_performance_data, get_active_ai_queries) and
proofs of the specified properties.

External libraries are modelled explicitly:
  * serde_json values and their Index/as_str behaviour (Json, Json.idx,
    Json.key, Json.as_str);
  * the http crate HeaderValue::from_str validity check and the
    StatusCode Display rendering (headerCharOk, validHeaderValue,
    canonicalReason, statusDisplay);
  * the reqwest network interaction, as an explicit NetOutcome input
    (transport error, or a response whose JSON/text decoding outcomes are
    recorded);
  * the sysinfo sampler, as an explicit PerfSample input.
A handler that can panic (the HeaderValue unwrap in generate_ai_response)
is embedded as an Option-valued function: none models the panic.
-/

namespace AIOS

/-- JSON values, as the serde_json Value type (numbers collapsed to Int, which no
claim depends on). -/
inductive Json where
  | null
  | bool (b : Bool)
  | num (n : Int)
  | str (s : String)
  | arr (elems : List Json)
  | obj (fields : List (String × Json))

/-- serde_json indexing of a Value by usize: an array yields its element,
anything else (or an out-of-range index) yields Null. -/
def Json.idx : Json → Nat → Json
  | .arr xs, i => xs.getD i .null
  | _, _ => .null

/-- serde_json indexing of a Value by string key: an object yields the
value of the field, anything else (or a missing key) yields Null. -/
def Json.key : Json → String → Json
  | .obj fs, k => ((fs.find? (fun p => p.1 == k)).map Prod.snd).getD .null
  | _, _ => .null

/-- serde_json Value::as_str: some for strings, none otherwise. -/
def Json.as_str : Json → Option String
  | .str s => some s
  | _ => none

/-- Validity of one byte of an HTTP header value, as the http crate HeaderValue check: tab, or at least 32 and not 127. Characters with code
point at least 128 encode to UTF-8 bytes that are all at least 128, hence
always valid, so the check can be stated per character. -/
def headerCharOk (c : Char) : Bool :=
  128 ≤ c.toNat || c.toNat == 9 || (32 ≤ c.toNat && c.toNat != 127)

/-- Validity of a string as an HTTP header value
(http HeaderValue::from_str succeeds). -/
def validHeaderValue (s : String) : Bool :=
  s.data.all headerCharOk

/-- Canonical reason phrase of an HTTP status code, as rendered by the http
crate StatusCode Display (table abbreviated to common codes; every code
the development evaluates concretely is listed). -/
def canonicalReason (s : Nat) : String :=
  if s = 200 then "OK"
  else if s = 201 then "Created"
  else if s = 204 then "No Content"
  else if s = 400 then "Bad Request"
  else if s = 401 then "Unauthorized"
  else if s = 403 then "Forbidden"
  else if s = 404 then "Not Found"
  else if s = 429 then "Too Many Requests"
  else if s = 500 then "Internal Server Error"
  else if s = 502 then "Bad Gateway"
  else if s = 503 then "Service Unavailable"
  else "<unknown status code>"

/-- Display rendering of an HTTP status code, as the http crate: the numeric
code, a space, and the canonical reason phrase. -/
def statusDisplay (s : Nat) : String :=
  toString s ++ " " ++ canonicalReason s

/-- reqwest StatusCode::is_success: 2xx. -/
def statusIsSuccess (s : Nat) : Bool :=
  200 ≤ s && s < 300

/-- An upstream HTTP response, with the outcomes of the two ways the handler
may decode its body (res.json() and res.text()); at most one of the two is
consulted on any control path. -/
structure Response where
  status : Nat
  jsonBody : Except String Json
  textBody : Except String String

/-- Outcome of attempting to send the request: a transport-level error
(DNS, connection, TLS, timeout), or a response. -/
inductive NetOutcome where
  | transportError (e : String)
  | response (r : Response)

/-- An outbound HTTP request as generate_ai_response builds it: POST to the
hardcoded URL, Authorization header, JSON body. -/
structure Request where
  method : String
  url : String
  authorization : String
  body : Json

/-- The request generate_ai_response constructs for a message and token
(main.rs lines 21-35): POST to the hardcoded gpt2 endpoint, Authorization
header "Bearer " followed by the token, body {"inputs": message}. -/
def hfRequest (message hf_token : String) : Request :=
  { method := "POST"
    url := "https://api-inference.huggingface.co/models/gpt2"
    authorization := "Bearer " ++ hf_token
    body := .obj [("inputs", .str message)] }

/-- Shallow embedding of generate_ai_response (main.rs lines 20-52).

Inputs beyond the message: the value of the HF_TOKEN environment variable
(none when unset) and the network outcome the world would produce for the
request. The result is none when the handler panics (the
.parse().unwrap() on the Authorization header value fails for tokens with
bytes below 32 other than tab, or byte 127); otherwise it is the Result of the command paired with the list of outbound HTTP requests issued. -/
def generate_ai_response (message : String) (env : Option String)
    (net : NetOutcome) : Option (Except String String × List Request) :=
  match env with
  | none =>
      some (.error "HF_TOKEN not set: environment variable not found", [])
  | some hf_token =>
      if validHeaderValue ("Bearer " ++ hf_token) then
        let req := hfRequest message hf_token
        match net with
        | .transportError e =>
            some (.error ("Failed to send request to Hugging Face API: " ++ e),
                  [req])
        | .response res =>
            if statusIsSuccess res.status then
              match res.jsonBody with
              | .error e =>
                  some (.error ("Failed to parse response JSON: " ++ e), [req])
              | .ok response_json =>
                  match ((response_json.idx 0).key "generated_text").as_str with
                  | some generated_text => some (.ok generated_text, [req])
                  | none =>
                      some (.error "Generated text not found in response.", [req])
            else
              match res.textBody with
              | .error e =>
                  some (.error ("Failed to get error text: " ++ e), [req])
              | .ok error_text =>
                  some (.error ("Hugging Face API error: "
                          ++ statusDisplay res.status ++ " - " ++ error_text),
                        [req])
      else
        none

/-- Wire shape of a chat message (main.rs lines 6-12); never constructed by
the backend. -/
structure ChatMessage where
  id : String
  content : String
  sender : String
  timestamp : String
deriving Repr, DecidableEq

/-- The mutable state of the backend: main.rs declares no static and no shared
mutable value, so the state every handler can read or write is trivial. -/
def BackendState : Type := Unit

/-- get_chat_history (main.rs lines 14-17), as a state-passing function on
the (trivial) backend state: returns Ok with the empty vector. -/
def get_chat_history (s : BackendState) :
    (Except String (List ChatMessage)) × BackendState :=
  (.ok [], s)

/-- A sample of the sysinfo readings get_performance_data consumes:
the global CPU usage percentage reported by the OS (an f32, modelled as a
rational) and the used and total physical memory in bytes. -/
structure PerfSample where
  cpuUsage : ℚ
  usedMemory : ℕ
  totalMemory : ℕ
deriving Repr, DecidableEq

/-- Result shape of get_performance_data (main.rs lines 54-58); the two f32
percentages are modelled as rationals. -/
structure PerformanceData where
  cpu_usage : ℚ
  memory_usage : ℚ
deriving Repr, DecidableEq

/-- get_performance_data (main.rs lines 60-73): passes the sampled CPU usage
through and computes memory usage as used / total * 100. -/
def get_performance_data (s : PerfSample) : Except String PerformanceData :=
  .ok { cpu_usage := s.cpuUsage
        memory_usage := (s.usedMemory : ℚ) / (s.totalMemory : ℚ) * 100 }

/-- get_active_ai_queries (main.rs lines 75-79): returns Ok 5. -/
def get_active_ai_queries : Except String Nat :=
  .ok 5

/-- One command invocation, with the external inputs each handler consumes. -/
inductive Call where
  | chatHistory
  | generateAiResponse (message : String) (env : Option String) (net : NetOutcome)
  | performanceData (sample : PerfSample)
  | activeQueries

/-- The backend state a call leaves behind. get_chat_history is run as the
state-passing function it is; the other three handlers touch no backend
state (each reads only its own locals and external inputs), so they leave
the state unchanged. -/
def stepCall (s : BackendState) : Call → BackendState
  | .chatHistory => (get_chat_history s).2
  | .generateAiResponse _ _ _ => s
  | .performanceData _ => s
  | .activeQueries => s

/-- The backend state after a sequence of calls. -/
def runCalls (s : BackendState) (cs : List Call) : BackendState :=
  cs.foldl stepCall s

/-- p begins s: the first p.data.length characters of s are exactly p. -/
def strStarts (p s : String) : Prop :=
  s.data.take p.data.length = p.data

instance instDecidableStrStarts (p s : String) : Decidable (strStarts p s) :=
  inferInstanceAs (Decidable (s.data.take p.data.length = p.data))

/-- sub occurs inside s as a contiguous substring. -/
def containsSub (sub s : String) : Prop :=
  ∃ pre post, s = pre ++ sub ++ post

theorem strStarts_append (p rest : String) : strStarts p (p ++ rest) := by
  unfold strStarts
  rw [String.data_append]
  exact List.take_left p.data rest.data

theorem strStarts_append_right {p q : String} (rest : String)
    (h : strStarts p q) : strStarts p (q ++ rest) := by
  unfold strStarts at h ⊢
  have hlen : p.data.length ≤ q.data.length := by
    have := congrArg List.length h
    simp only [List.length_take] at this
    omega
  rw [String.data_append, List.take_append_of_le_length hlen]
  exact h

theorem coreProofs_stringEq_of_dataEq {a b : String} (h : a.data = b.data) :
    a = b := by
  cases a
  cases b
  exact congrArg String.mk h

/-- C1: when the upstream answers with a success status and a JSON body whose
element 0 has a string-valued generated_text field, generate_ai_response
returns Ok with exactly that string. -/
theorem generateAiResponse_success_returns_text
    (message hf_token s : String) (res : Response) (j : Json)
    (hv : validHeaderValue ("Bearer " ++ hf_token) = true)
    (hs : statusIsSuccess res.status = true)
    (hj : res.jsonBody = .ok j)
    (hg : ((j.idx 0).key "generated_text").as_str = some s) :
    generate_ai_response message (some hf_token) (.response res)
      = some (.ok s, [hfRequest message hf_token]) := by
  simp [generate_ai_response, hv, hs, hj, hg]

/-- Witness for C1 at the spec example: status 200 with body
[{"generated_text": "hello"}] yields the result "hello". -/
theorem generateAiResponse_success_returns_text_witness :
    validHeaderValue ("Bearer " ++ "token") = true
    ∧ statusIsSuccess 200 = true
    ∧ generate_ai_response "hi" (some "token")
        (.response ⟨200, .ok (.arr [.obj [("generated_text", .str "hello")]]),
          .ok ""⟩)
      = some (.ok "hello", [hfRequest "hi" "token"]) :=
  ⟨rfl, rfl,
    generateAiResponse_success_returns_text "hi" "token" "hello"
      ⟨200, .ok (.arr [.obj [("generated_text", .str "hello")]]), .ok ""⟩
      (.arr [.obj [("generated_text", .str "hello")]]) rfl rfl rfl rfl⟩

/-- C2: with HF_TOKEN unset, generate_ai_response fails with the
configuration-error string and issues no outbound request, for every
message and every state of the network. -/
theorem generateAiResponse_no_token (message : String) (net : NetOutcome) :
    generate_ai_response message none net
      = some (.error "HF_TOKEN not set: environment variable not found", []) :=
  rfl

/-- C3: on a success status whose JSON body lacks a string-valued
generated_text field at element 0, generate_ai_response returns the fixed
error string, and the result depends only on element 0 of the body: bodies
agreeing at element 0 give identical results. -/
theorem generateAiResponse_shape_mismatch
    (message hf_token : String) (res : Response) (j : Json)
    (hv : validHeaderValue ("Bearer " ++ hf_token) = true)
    (hs : statusIsSuccess res.status = true)
    (hj : res.jsonBody = .ok j)
    (hg : ((j.idx 0).key "generated_text").as_str = none) :
    generate_ai_response message (some hf_token) (.response res)
      = some (.error "Generated text not found in response.",
              [hfRequest message hf_token])
    ∧ ∀ j2 : Json, j2.idx 0 = j.idx 0 →
        generate_ai_response message (some hf_token)
            (.response { res with jsonBody := .ok j2 })
          = generate_ai_response message (some hf_token) (.response res) := by
  constructor
  · simp [generate_ai_response, hv, hs, hj, hg]
  · intro j2 h2
    simp [generate_ai_response, hv, hs, hj, hg, h2]

/-- Witness for C3 at the spec example: status 200 with body [{}] gives the
fixed error. -/
theorem generateAiResponse_shape_mismatch_witness :
    validHeaderValue ("Bearer " ++ "token") = true
    ∧ statusIsSuccess 200 = true
    ∧ ((((Json.arr [Json.obj []]).idx 0).key "generated_text").as_str = none)
    ∧ (generate_ai_response "hi" (some "token")
          (.response ⟨200, .ok (.arr [.obj []]), .ok ""⟩)
        = some (.error "Generated text not found in response.",
                [hfRequest "hi" "token"])
      ∧ ∀ j2 : Json, j2.idx 0 = (Json.arr [Json.obj []]).idx 0 →
          generate_ai_response "hi" (some "token")
              (.response { (⟨200, .ok (.arr [.obj []]), .ok ""⟩ : Response)
                            with jsonBody := .ok j2 })
            = generate_ai_response "hi" (some "token")
                (.response ⟨200, .ok (.arr [.obj []]), .ok ""⟩)) :=
  ⟨rfl, rfl, rfl,
    generateAiResponse_shape_mismatch "hi" "token"
      ⟨200, .ok (.arr [.obj []]), .ok ""⟩ (.arr [.obj []]) rfl rfl rfl rfl⟩

/-- C4: on a non-success status with a readable body, generate_ai_response
fails with a string that embeds both the status display (hence the numeric
code) and the raw body. -/
theorem generateAiResponse_upstream_error
    (message hf_token text : String) (res : Response)
    (hv : validHeaderValue ("Bearer " ++ hf_token) = true)
    (hs : statusIsSuccess res.status = false)
    (ht : res.textBody = .ok text) :
    generate_ai_response message (some hf_token) (.response res)
      = some (.error ("Hugging Face API error: " ++ statusDisplay res.status
              ++ " - " ++ text), [hfRequest message hf_token])
    ∧ containsSub (toString res.status)
        ("Hugging Face API error: " ++ statusDisplay res.status ++ " - " ++ text)
    ∧ containsSub text
        ("Hugging Face API error: " ++ statusDisplay res.status ++ " - " ++ text) := by
  refine ⟨by simp [generate_ai_response, hv, hs, ht], ?_, ?_⟩
  · refine ⟨"Hugging Face API error: ",
      " " ++ canonicalReason res.status ++ " - " ++ text, ?_⟩
    apply coreProofs_stringEq_of_dataEq
    simp [statusDisplay, String.data_append, List.append_assoc]
  · refine ⟨"Hugging Face API error: " ++ statusDisplay res.status ++ " - ",
      "", ?_⟩
    apply coreProofs_stringEq_of_dataEq
    simp [String.data_append, List.append_assoc]

/-- Witness for C4 at the spec example: status 500 with body "boom" yields an
error containing both 500 and boom. -/
theorem generateAiResponse_upstream_error_witness :
    validHeaderValue ("Bearer " ++ "token") = true
    ∧ statusIsSuccess 500 = false
    ∧ (generate_ai_response "hi" (some "token")
          (.response ⟨500, .ok .null, .ok "boom"⟩)
        = some (.error ("Hugging Face API error: " ++ statusDisplay 500
                ++ " - " ++ "boom"), [hfRequest "hi" "token"])
      ∧ containsSub (toString 500)
          ("Hugging Face API error: " ++ statusDisplay 500 ++ " - " ++ "boom")
      ∧ containsSub "boom"
          ("Hugging Face API error: " ++ statusDisplay 500 ++ " - " ++ "boom")) :=
  ⟨rfl, rfl,
    generateAiResponse_upstream_error "hi" "token" "boom"
      ⟨500, .ok .null, .ok "boom"⟩ rfl rfl rfl⟩

/-- The failure scenarios C5 enumerates: missing token, transport error,
non-success status, undecodable success body, success body of the wrong
shape. -/
def isFailureScenario (env : Option String) (net : NetOutcome) : Prop :=
  env = none
  ∨ (∃ e, net = .transportError e)
  ∨ (∃ res, net = .response res ∧ statusIsSuccess res.status = false)
  ∨ (∃ res e, net = .response res ∧ statusIsSuccess res.status = true
        ∧ res.jsonBody = .error e)
  ∨ (∃ res j, net = .response res ∧ statusIsSuccess res.status = true
        ∧ res.jsonBody = .ok j
        ∧ ((j.idx 0).key "generated_text").as_str = none)

/-- C5 counterexample: with HF_TOKEN set to a value holding a control
character (a NUL byte), the HeaderValue unwrap fails and the handler
panics (modelled as none) instead of returning an Err value, so the claim
that generate_ai_response never panics is false as stated. -/
theorem generateAiResponse_panics_on_control_token :
    generate_ai_response "hello" (some "bad\x00token")
        (.transportError "connection refused")
      = none :=
  rfl

/-- C5 as amended: provided any present token is a valid header value,
generate_ai_response never panics, and in every enumerated failure
scenario the result is an Err string. -/
theorem generateAiResponse_total_and_fails_as_error
    (message : String) (env : Option String) (net : NetOutcome)
    (hv : ∀ t, env = some t → validHeaderValue ("Bearer " ++ t) = true) :
    ∃ out, generate_ai_response message env net = some out
      ∧ (isFailureScenario env net → ∃ e, out.1 = Except.error e) := by
  cases env with
  | none =>
    exact ⟨(.error "HF_TOKEN not set: environment variable not found", []),
      rfl, fun _ => ⟨_, rfl⟩⟩
  | some t =>
    have hvt : validHeaderValue ("Bearer " ++ t) = true := hv t rfl
    cases net with
    | transportError e =>
      refine ⟨(.error ("Failed to send request to Hugging Face API: " ++ e),
        [hfRequest message t]), ?_, fun _ => ⟨_, rfl⟩⟩
      simp [generate_ai_response, hvt]
    | response res =>
      by_cases hs : statusIsSuccess res.status = true
      · cases hjb : res.jsonBody with
        | error e =>
          refine ⟨(.error ("Failed to parse response JSON: " ++ e),
            [hfRequest message t]), ?_, fun _ => ⟨_, rfl⟩⟩
          simp [generate_ai_response, hvt, hs, hjb]
        | ok j =>
          cases hg : ((j.idx 0).key "generated_text").as_str with
          | none =>
            refine ⟨(.error "Generated text not found in response.",
              [hfRequest message t]), ?_, fun _ => ⟨_, rfl⟩⟩
            simp [generate_ai_response, hvt, hs, hjb, hg]
          | some s =>
            refine ⟨(.ok s, [hfRequest message t]),
              by simp [generate_ai_response, hvt, hs, hjb, hg], ?_⟩
            rintro (h | ⟨e, h⟩ | ⟨r, h, hr⟩ | ⟨r, e, h, _, hr⟩ | ⟨r, j2, h, _, hr, hg2⟩)
            · exact absurd h (by simp)
            · exact absurd h (by simp)
            · cases h; rw [hs] at hr; cases hr
            · cases h; rw [hjb] at hr; cases hr
            · cases h
              rw [hjb] at hr
              cases hr
              rw [hg] at hg2
              cases hg2
      · cases ht : res.textBody with
        | error e =>
          refine ⟨(.error ("Failed to get error text: " ++ e),
            [hfRequest message t]), ?_, fun _ => ⟨_, rfl⟩⟩
          simp [generate_ai_response, hvt, hs, ht]
        | ok txt =>
          refine ⟨(.error ("Hugging Face API error: "
              ++ statusDisplay res.status ++ " - " ++ txt),
            [hfRequest message t]), ?_, fun _ => ⟨_, rfl⟩⟩
          simp [generate_ai_response, hvt, hs, ht]

/-- Witness for the amended C5 at a concrete failure scenario (no token,
transport would refuse): the call returns a value and it is an Err. -/
theorem generateAiResponse_total_and_fails_as_error_witness :
    (∀ t, (none : Option String) = some t
        → validHeaderValue ("Bearer " ++ t) = true)
    ∧ ∃ out, generate_ai_response "hi" none (.transportError "x") = some out
        ∧ (isFailureScenario none (.transportError "x")
            → ∃ e, out.1 = Except.error e) :=
  ⟨(fun _ h => nomatch h),
    generateAiResponse_total_and_fails_as_error "hi" none (.transportError "x")
      (fun _ h => nomatch h)⟩

/-- C6 counterexample: for the available token a-newline-b the handler
panics at header construction and no request record exists, so the claim
that every message and available token lead to exactly one POST is false
as stated. -/
theorem generateAiResponse_no_request_on_control_token :
    generate_ai_response "hi" (some "a\nb") (.transportError "x") = none
    ∧ ¬ ∃ r reqs, generate_ai_response "hi" (some "a\nb") (.transportError "x")
        = some (r, reqs) := by
  refine ⟨rfl, ?_⟩
  rintro ⟨r, reqs, h⟩
  rw [show generate_ai_response "hi" (some "a\nb") (.transportError "x")
        = none from rfl] at h
  exact Option.noConfusion h

/-- C6 as amended: for every message and every available token that forms a
valid header value, generate_ai_response issues exactly one request: a POST
to the hardcoded endpoint, Authorization header Bearer-space-token, body
exactly an inputs object carrying the message. -/
theorem generateAiResponse_single_request
    (message hf_token : String) (net : NetOutcome)
    (hv : validHeaderValue ("Bearer " ++ hf_token) = true) :
    ∃ r, generate_ai_response message (some hf_token) net
      = some (r, [{ method := "POST"
                    url := "https://api-inference.huggingface.co/models/gpt2"
                    authorization := "Bearer " ++ hf_token
                    body := .obj [("inputs", .str message)] }]) := by
  cases net with
  | transportError e =>
    exact ⟨.error ("Failed to send request to Hugging Face API: " ++ e),
      by simp [generate_ai_response, hv, hfRequest]⟩
  | response res =>
    by_cases hs : statusIsSuccess res.status = true
    · cases hjb : res.jsonBody with
      | error e =>
        exact ⟨.error ("Failed to parse response JSON: " ++ e),
          by simp [generate_ai_response, hv, hs, hjb, hfRequest]⟩
      | ok j =>
        cases hg : ((j.idx 0).key "generated_text").as_str with
        | none =>
          exact ⟨.error "Generated text not found in response.",
            by simp [generate_ai_response, hv, hs, hjb, hg, hfRequest]⟩
        | some s =>
          exact ⟨.ok s,
            by simp [generate_ai_response, hv, hs, hjb, hg, hfRequest]⟩
    · cases ht : res.textBody with
      | error e =>
        exact ⟨.error ("Failed to get error text: " ++ e),
          by simp [generate_ai_response, hv, hs, ht, hfRequest]⟩
      | ok txt =>
        exact ⟨.error ("Hugging Face API error: "
            ++ statusDisplay res.status ++ " - " ++ txt),
          by simp [generate_ai_response, hv, hs, ht, hfRequest]⟩

/-- Witness for the amended C6 at a concrete input. -/
theorem generateAiResponse_single_request_witness :
    validHeaderValue ("Bearer " ++ "token") = true
    ∧ ∃ r, generate_ai_response "ping" (some "token") (.transportError "refused")
      = some (r, [{ method := "POST"
                    url := "https://api-inference.huggingface.co/models/gpt2"
                    authorization := "Bearer " ++ "token"
                    body := .obj [("inputs", .str "ping")] }]) :=
  ⟨rfl,
    generateAiResponse_single_request "ping" "token" (.transportError "refused")
      rfl⟩

/-- C7: for a sample whose CPU percentage lies in [0, 100] (as the sysinfo
library reports) and whose used memory does not exceed a positive total,
get_performance_data returns Ok with both percentages in [0, 100] and the
memory percentage equal to used over total times 100. -/
theorem getPerformanceData_bounds
    (s : PerfSample)
    (hc0 : 0 ≤ s.cpuUsage) (hc1 : s.cpuUsage ≤ 100)
    (hm : s.usedMemory ≤ s.totalMemory) (hpos : 0 < s.totalMemory) :
    ∃ d, get_performance_data s = .ok d
      ∧ 0 ≤ d.cpu_usage ∧ d.cpu_usage ≤ 100
      ∧ 0 ≤ d.memory_usage ∧ d.memory_usage ≤ 100
      ∧ d.memory_usage = (s.usedMemory : ℚ) / (s.totalMemory : ℚ) * 100 := by
  refine ⟨_, rfl, hc0, hc1, ?_, ?_, rfl⟩
  · positivity
  · have htot : (0 : ℚ) < (s.totalMemory : ℚ) := by exact_mod_cast hpos
    have h1 : (s.usedMemory : ℚ) / (s.totalMemory : ℚ) ≤ 1 := by
      rw [div_le_one htot]
      exact_mod_cast hm
    calc (s.usedMemory : ℚ) / (s.totalMemory : ℚ) * 100
        ≤ 1 * 100 := by
          apply mul_le_mul_of_nonneg_right h1
          norm_num
      _ = 100 := by norm_num

/-- Witness for C7 at a concrete sample: CPU 50 percent, 1 of 2 bytes used. -/
theorem getPerformanceData_bounds_witness :
    (0 : ℚ) ≤ (⟨50, 1, 2⟩ : PerfSample).cpuUsage
    ∧ (⟨50, 1, 2⟩ : PerfSample).cpuUsage ≤ 100
    ∧ (⟨50, 1, 2⟩ : PerfSample).usedMemory ≤ (⟨50, 1, 2⟩ : PerfSample).totalMemory
    ∧ 0 < (⟨50, 1, 2⟩ : PerfSample).totalMemory
    ∧ ∃ d, get_performance_data ⟨50, 1, 2⟩ = .ok d
        ∧ 0 ≤ d.cpu_usage ∧ d.cpu_usage ≤ 100
        ∧ 0 ≤ d.memory_usage ∧ d.memory_usage ≤ 100
        ∧ d.memory_usage = ((⟨50, 1, 2⟩ : PerfSample).usedMemory : ℚ)
            / ((⟨50, 1, 2⟩ : PerfSample).totalMemory : ℚ) * 100 :=
  ⟨by norm_num, by norm_num, by norm_num, by norm_num,
    getPerformanceData_bounds ⟨50, 1, 2⟩
      (by norm_num) (by norm_num) (by norm_num) (by norm_num)⟩

/-- C8: after any sequence of prior command invocations, get_chat_history
returns Ok with the empty list — no hidden state accumulates. -/
theorem getChatHistory_always_empty (calls : List Call) :
    (get_chat_history (runCalls () calls)).1
      = .ok ([] : List ChatMessage) :=
  rfl

/-- C9: get_active_ai_queries returns Ok with exactly 5. -/
theorem getActiveAiQueries_returns_five :
    get_active_ai_queries = .ok 5 :=
  rfl

/-- The error-prefix taxonomy of generate_ai_response for a fixed message and
token: each failure category yields an error string carrying the fixed
prefix of that category, the six prefixes pairwise distinguishable (none
begins another). -/
def errorPrefixSpec (message hf_token : String) : Prop :=
  (∀ net, ∃ s, generate_ai_response message none net = some (.error s, [])
      ∧ strStarts "HF_TOKEN not set:" s)
  ∧ (∀ e, ∃ s reqs,
      generate_ai_response message (some hf_token) (.transportError e)
        = some (.error s, reqs)
      ∧ strStarts "Failed to send request to Hugging Face API:" s)
  ∧ (∀ res e, statusIsSuccess res.status = true
      → res.jsonBody = .error e
      → ∃ s reqs, generate_ai_response message (some hf_token) (.response res)
          = some (.error s, reqs)
        ∧ strStarts "Failed to parse response JSON:" s)
  ∧ (∀ res j, statusIsSuccess res.status = true
      → res.jsonBody = .ok j
      → ((j.idx 0).key "generated_text").as_str = none
      → ∃ reqs, generate_ai_response message (some hf_token) (.response res)
          = some (.error "Generated text not found in response.", reqs))
  ∧ (∀ res txt, statusIsSuccess res.status = false
      → res.textBody = .ok txt
      → ∃ s reqs, generate_ai_response message (some hf_token) (.response res)
          = some (.error s, reqs)
        ∧ strStarts "Hugging Face API error:" s)
  ∧ (∀ res e, statusIsSuccess res.status = false
      → res.textBody = .error e
      → ∃ s reqs, generate_ai_response message (some hf_token) (.response res)
          = some (.error s, reqs)
        ∧ strStarts "Failed to get error text:" s)
  ∧ List.Pairwise (fun a b => ¬ strStarts a b ∧ ¬ strStarts b a)
      ["HF_TOKEN not set:",
       "Failed to send request to Hugging Face API:",
       "Failed to parse response JSON:",
       "Generated text not found in response.",
       "Hugging Face API error:",
       "Failed to get error text:"]

/-- C10 counterexample: a non-success status whose body text is unreadable
yields the error string with prefix "Failed to get error text:", not
"Hugging Face API error:", so the five-prefix taxonomy of the claim is
incomplete as stated. -/
theorem generateAiResponse_unreadable_body_prefix :
    generate_ai_response "hi" (some "token")
        (.response ⟨500, .ok .null, .error "read failed"⟩)
      = some (.error "Failed to get error text: read failed",
              [hfRequest "hi" "token"])
    ∧ ¬ strStarts "Hugging Face API error:"
        "Failed to get error text: read failed" :=
  ⟨rfl, by decide⟩

/-- C10 as amended: with a valid token, the six failure categories (the five
of the claim plus the unreadable-non-success-body one) each produce their
own fixed error prefix, and no prefix begins another, so the category is
recoverable from the string. -/
theorem generateAiResponse_error_prefixes
    (message hf_token : String)
    (hv : validHeaderValue ("Bearer " ++ hf_token) = true) :
    errorPrefixSpec message hf_token := by
  refine ⟨?_, ?_, ?_, ?_, ?_, ?_, by decide⟩
  · intro net
    exact ⟨"HF_TOKEN not set: environment variable not found", rfl, by decide⟩
  · intro e
    refine ⟨"Failed to send request to Hugging Face API: " ++ e,
      [hfRequest message hf_token], by simp [generate_ai_response, hv], ?_⟩
    exact strStarts_append_right e (by decide)
  · intro res e hs hjb
    refine ⟨"Failed to parse response JSON: " ++ e,
      [hfRequest message hf_token],
      by simp [generate_ai_response, hv, hs, hjb], ?_⟩
    exact strStarts_append_right e (by decide)
  · intro res j hs hjb hg
    exact ⟨[hfRequest message hf_token],
      by simp [generate_ai_response, hv, hs, hjb, hg]⟩
  · intro res txt hs ht
    refine ⟨"Hugging Face API error: " ++ statusDisplay res.status
        ++ " - " ++ txt,
      [hfRequest message hf_token],
      by simp [generate_ai_response, hv, hs, ht], ?_⟩
    exact strStarts_append_right txt
      (strStarts_append_right " - "
        (strStarts_append_right (statusDisplay res.status) (by decide)))
  · intro res e hs ht
    refine ⟨"Failed to get error text: " ++ e,
      [hfRequest message hf_token],
      by simp [generate_ai_response, hv, hs, ht], ?_⟩
    exact strStarts_append_right e (by decide)

/-- Witness for the amended C10 at a concrete token. -/
theorem generateAiResponse_error_prefixes_witness :
    validHeaderValue ("Bearer " ++ "token") = true
    ∧ errorPrefixSpec "hi" "token" :=
  ⟨rfl, generateAiResponse_error_prefixes "hi" "token" rfl⟩

end AIOS
